import Mathlib

/-!
  # Verification of the Modbus protocol core

  Shallow embedding of the Modbus library found under
  src/application/dependencies/modbus, together with theorems settling the
  frozen claims about it.

  Modelling conventions:

  * C byte buffers become List Nat; every element produced by the embedded
    code is reduced modulo 256 exactly where the C code performs a uint8_t
    cast or stores into a uint8_t object.
  * Out-parameters become return values; a C function that returns
    modbus_error_t and fills an out-parameter becomes a function into
    Except modbus_error_t or a structure carrying both the error and the
    produced value.
  * All pointers handed to the embedded functions are assumed non-null (the
    claims under study all quantify over valid inputs), so the defensive
    null checks of the C code, which only produce MODBUS_ERROR_INVALID_PARAM,
    are dropped; every other check is kept.
  * The data-access callbacks (modbus_cb_read_coils and friends, declared in
    modbus_callbacks.h and provided by the application) are modelled as a
    record of pure functions. A read callback returns the exception code
    together with the buffer contents it produced. To express the claim that
    a callback is invoked exactly once, the dispatch functions additionally
    return the list of callback invocations they performed, in order.
-/

set_option maxRecDepth 8000

deriving instance DecidableEq for Except

namespace Modbus

/-! ## Types (modbus_types.h) -/

/-- Library error codes, from the modbus_error_t enum. -/
inductive modbus_error_t where
  | MODBUS_OK
  | MODBUS_ERROR_INVALID_PARAM
  | MODBUS_ERROR_INVALID_STATE
  | MODBUS_ERROR_TIMEOUT
  | MODBUS_ERROR_CRC
  | MODBUS_ERROR_FRAME
  | MODBUS_ERROR_TRANSPORT
  | MODBUS_ERROR_BUFFER_OVERFLOW
  | MODBUS_ERROR_NOT_INITIALIZED
  | MODBUS_ERROR_BUSY
  | MODBUS_ERROR_NO_RESPONSE
  | MODBUS_ERROR_EXCEPTION
  deriving Repr, DecidableEq

/-- Modbus exception codes, from the modbus_exception_t enum. -/
inductive modbus_exception_t where
  | MODBUS_EXCEPTION_NONE
  | MODBUS_EXCEPTION_ILLEGAL_FUNCTION
  | MODBUS_EXCEPTION_ILLEGAL_DATA_ADDRESS
  | MODBUS_EXCEPTION_ILLEGAL_DATA_VALUE
  | MODBUS_EXCEPTION_SLAVE_DEVICE_FAILURE
  | MODBUS_EXCEPTION_ACKNOWLEDGE
  | MODBUS_EXCEPTION_SLAVE_DEVICE_BUSY
  | MODBUS_EXCEPTION_MEMORY_PARITY_ERROR
  | MODBUS_EXCEPTION_GATEWAY_PATH_UNAVAIL
  | MODBUS_EXCEPTION_GATEWAY_TARGET_FAILED
  deriving Repr, DecidableEq

/-- Numeric value of an exception code on the wire (the enum values). -/
def modbus_exception_t.code : modbus_exception_t → Nat
  | .MODBUS_EXCEPTION_NONE => 0
  | .MODBUS_EXCEPTION_ILLEGAL_FUNCTION => 1
  | .MODBUS_EXCEPTION_ILLEGAL_DATA_ADDRESS => 2
  | .MODBUS_EXCEPTION_ILLEGAL_DATA_VALUE => 3
  | .MODBUS_EXCEPTION_SLAVE_DEVICE_FAILURE => 4
  | .MODBUS_EXCEPTION_ACKNOWLEDGE => 5
  | .MODBUS_EXCEPTION_SLAVE_DEVICE_BUSY => 6
  | .MODBUS_EXCEPTION_MEMORY_PARITY_ERROR => 8
  | .MODBUS_EXCEPTION_GATEWAY_PATH_UNAVAIL => 10
  | .MODBUS_EXCEPTION_GATEWAY_TARGET_FAILED => 11

/-- Maximum PDU size in bytes (modbus_config.h, MODBUS_MAX_PDU_SIZE). -/
def MODBUS_MAX_PDU_SIZE : Nat := 253

/-- Modbus Protocol Data Unit. In C the data field is a fixed 252-byte array;
here it is the list of its meaningful bytes (its first data_length entries).
The invariant data_length less-or-equal 252 is carried by theorems, not by
the type. -/
structure modbus_pdu_t where
  function_code : Nat
  data : List Nat
  data_length : Nat
  deriving Repr, DecidableEq

/-- Modbus Application Data Unit. -/
structure modbus_adu_t where
  unit_id : Nat
  pdu : modbus_pdu_t
  transaction_id : Nat
  protocol_id : Nat
  deriving Repr, DecidableEq

/-- Modbus state machine states (modbus_state_t). -/
inductive modbus_state_t where
  | MODBUS_STATE_IDLE
  | MODBUS_STATE_RECEIVING
  | MODBUS_STATE_PROCESSING
  | MODBUS_STATE_SENDING
  | MODBUS_STATE_WAITING_RESPONSE
  | MODBUS_STATE_ERROR
  deriving Repr, DecidableEq

/-- The slice of modbus_config_t that the server core reads: its unit id.
The transport and timing members are never consulted by the functions
embedded here. -/
structure modbus_config_t where
  unit_id : Nat
  deriving Repr, DecidableEq

/-- The modbus_context structure from modbus_core.c. -/
structure modbus_context where
  config : modbus_config_t
  state : modbus_state_t
  initialized : Bool
  coil_buffer : List Nat
  register_buffer : List Nat
  requests_processed : Nat
  errors_count : Nat
  exceptions_sent : Nat
  deriving Repr, DecidableEq

/-- modbus_init from modbus_core.c: zero the context, copy the
configuration, mark it initialized, state Idle. -/
def modbus_init (config : modbus_config_t) : modbus_context :=
  { config := config
    state := .MODBUS_STATE_IDLE
    initialized := true
    coil_buffer := List.replicate 256 0
    register_buffer := List.replicate 125 0
    requests_processed := 0
    errors_count := 0
    exceptions_sent := 0 }

/-! ## Byte-order helpers (modbus_pdu.c) -/

/-- pdu_write_uint16_be: the two big-endian bytes of a 16-bit value. The
uint8_t casts of the C code become the two mod-256 reductions. -/
def pdu_write_uint16_be (value : Nat) : List Nat :=
  [(value / 256) % 256, value % 256]

/-- pdu_read_uint16_be, reading at a given offset of a byte buffer. -/
def pdu_read_uint16_be (buffer : List Nat) (off : Nat) : Nat :=
  (buffer.getD off 0) * 256 + buffer.getD (off + 1) 0

/-! ## PDU codec (modbus_pdu.c) -/

/-- modbus_pdu_encode_exception. With a non-null response pointer the C
function always returns MODBUS_OK, so the embedding returns the PDU it
builds: original function code with the high bit set, single data byte
holding the exception code. -/
def modbus_pdu_encode_exception (function_code : Nat)
    (exception_code : modbus_exception_t) : modbus_pdu_t :=
  { function_code := (function_code % 256) ||| 128
    data := [exception_code.code]
    data_length := 1 }

/-- modbus_pdu_encode_read_bits_response (FC01/FC02 responses). -/
def modbus_pdu_encode_read_bits_response (function_code : Nat)
    (coil_values : List Nat) (quantity : Nat) :
    Except modbus_error_t modbus_pdu_t :=
  let byte_count := ((quantity + 7) / 8) % 256
  if 1 + byte_count ≤ MODBUS_MAX_PDU_SIZE - 1 then
    Except.ok
      { function_code := function_code
        data := byte_count :: coil_values.take byte_count
        data_length := 1 + byte_count }
  else
    Except.error .MODBUS_ERROR_BUFFER_OVERFLOW

/-- modbus_pdu_encode_read_registers_response (FC03/FC04 responses). -/
def modbus_pdu_encode_read_registers_response (function_code : Nat)
    (register_values : List Nat) (quantity : Nat) :
    Except modbus_error_t modbus_pdu_t :=
  let byte_count := (quantity * 2) % 256
  if 1 + byte_count ≤ MODBUS_MAX_PDU_SIZE - 1 then
    Except.ok
      { function_code := function_code
        data := byte_count ::
          ((List.range quantity).map
            (fun i => pdu_write_uint16_be (register_values.getD i 0))).flatten
        data_length := 1 + byte_count }
  else
    Except.error .MODBUS_ERROR_BUFFER_OVERFLOW

/-- modbus_pdu_encode_write_single_response (FC05/FC06 responses): echo
address and value. Always MODBUS_OK with a valid pointer. -/
def modbus_pdu_encode_write_single_response (function_code address value : Nat) :
    modbus_pdu_t :=
  { function_code := function_code
    data := pdu_write_uint16_be address ++ pdu_write_uint16_be value
    data_length := 4 }

/-- modbus_pdu_encode_write_multiple_response (FC15/FC16 responses): echo
start address and quantity. Always MODBUS_OK with a valid pointer. -/
def modbus_pdu_encode_write_multiple_response
    (function_code start_address quantity : Nat) : modbus_pdu_t :=
  { function_code := function_code
    data := pdu_write_uint16_be start_address ++ pdu_write_uint16_be quantity
    data_length := 4 }

/-- modbus_pdu_decode_read_bits_request (FC01/FC02 requests). -/
def modbus_pdu_decode_read_bits_request (pdu : modbus_pdu_t) :
    Except modbus_error_t (Nat × Nat) :=
  if 4 ≤ pdu.data_length then
    Except.ok (pdu_read_uint16_be pdu.data 0, pdu_read_uint16_be pdu.data 2)
  else
    Except.error .MODBUS_ERROR_FRAME

/-- modbus_pdu_decode_read_registers_request (FC03/FC04 requests). -/
def modbus_pdu_decode_read_registers_request (pdu : modbus_pdu_t) :
    Except modbus_error_t (Nat × Nat) :=
  if 4 ≤ pdu.data_length then
    Except.ok (pdu_read_uint16_be pdu.data 0, pdu_read_uint16_be pdu.data 2)
  else
    Except.error .MODBUS_ERROR_FRAME

/-- modbus_pdu_decode_write_single_coil_request (FC05): the value bytes must
be 0xFF00 or 0x0000. -/
def modbus_pdu_decode_write_single_coil_request (pdu : modbus_pdu_t) :
    Except modbus_error_t (Nat × Bool) :=
  if 4 ≤ pdu.data_length then
    let address := pdu_read_uint16_be pdu.data 0
    let coil_value := pdu_read_uint16_be pdu.data 2
    if coil_value = 65280 ∨ coil_value = 0 then
      Except.ok (address, coil_value = 65280)
    else
      Except.error .MODBUS_ERROR_FRAME
  else
    Except.error .MODBUS_ERROR_FRAME

/-- modbus_pdu_decode_write_single_register_request (FC06). -/
def modbus_pdu_decode_write_single_register_request (pdu : modbus_pdu_t) :
    Except modbus_error_t (Nat × Nat) :=
  if 4 ≤ pdu.data_length then
    Except.ok (pdu_read_uint16_be pdu.data 0, pdu_read_uint16_be pdu.data 2)
  else
    Except.error .MODBUS_ERROR_FRAME

/-- modbus_pdu_decode_write_multiple_coils_request (FC15). The returned list
is the packed coil bytes the C code exposes by pointer into the PDU data. -/
def modbus_pdu_decode_write_multiple_coils_request (pdu : modbus_pdu_t) :
    Except modbus_error_t (Nat × Nat × List Nat) :=
  if 5 ≤ pdu.data_length then
    let start_address := pdu_read_uint16_be pdu.data 0
    let quantity := pdu_read_uint16_be pdu.data 2
    let byte_count := pdu.data.getD 4 0
    let expected_bytes := ((quantity + 7) / 8) % 256
    if byte_count = expected_bytes then
      if 5 + byte_count ≤ pdu.data_length then
        Except.ok (start_address, quantity, (pdu.data.drop 5).take byte_count)
      else
        Except.error .MODBUS_ERROR_FRAME
    else
      Except.error .MODBUS_ERROR_FRAME
  else
    Except.error .MODBUS_ERROR_FRAME

/-- modbus_pdu_decode_write_multiple_registers_request (FC16). In the C code
the byte_count comparison promotes both sides to unsigned int, so quantity
times two is compared without a uint8_t truncation. -/
def modbus_pdu_decode_write_multiple_registers_request (pdu : modbus_pdu_t)
    (max_values : Nat) : Except modbus_error_t (Nat × Nat × List Nat) :=
  if 5 ≤ pdu.data_length then
    let start_address := pdu_read_uint16_be pdu.data 0
    let quantity := pdu_read_uint16_be pdu.data 2
    let byte_count := pdu.data.getD 4 0
    if byte_count = quantity * 2 then
      if quantity ≤ max_values then
        if 5 + byte_count ≤ pdu.data_length then
          Except.ok (start_address, quantity,
            (List.range quantity).map
              (fun i => pdu_read_uint16_be pdu.data (5 + 2 * i)))
        else
          Except.error .MODBUS_ERROR_FRAME
      else
        Except.error .MODBUS_ERROR_BUFFER_OVERFLOW
    else
      Except.error .MODBUS_ERROR_FRAME
  else
    Except.error .MODBUS_ERROR_FRAME

/-- modbus_pdu_serialize: function code followed by the data bytes.
total_length is computed in a uint16_t, hence the mod 2^16. On success the
returned list is the written buffer prefix, of length total_length. -/
def modbus_pdu_serialize (pdu : modbus_pdu_t) (buffer_size : Nat) :
    Except modbus_error_t (List Nat) :=
  let total_length := (1 + pdu.data_length) % 65536
  if total_length ≤ buffer_size then
    Except.ok (pdu.function_code :: pdu.data.take pdu.data_length)
  else
    Except.error .MODBUS_ERROR_BUFFER_OVERFLOW

/-- modbus_pdu_deserialize: first byte is the function code, the remaining
length minus one bytes are the data. Zero length fails with Frame, length
above MODBUS_MAX_PDU_SIZE fails with BufferOverflow. -/
def modbus_pdu_deserialize (buffer : List Nat) (length : Nat) :
    Except modbus_error_t modbus_pdu_t :=
  if 1 ≤ length then
    if length ≤ MODBUS_MAX_PDU_SIZE then
      Except.ok
        { function_code := buffer.headD 0
          data := (buffer.drop 1).take (length - 1)
          data_length := length - 1 }
    else
      Except.error .MODBUS_ERROR_BUFFER_OVERFLOW
  else
    Except.error .MODBUS_ERROR_FRAME

/-! ## LRC and hex codec (modbus_lrc.c) -/

/-- The uint8_t running sum of the modbus_lrc loop: each addition wraps
modulo 256. -/
def lrc_sum (data : List Nat) : Nat :=
  data.foldl (fun s b => (s + b) % 256) 0

/-- modbus_lrc: two's complement of the 8-bit sum of all bytes; 0 for an
empty buffer. -/
def modbus_lrc (data : List Nat) : Nat :=
  if data = [] then 0 else (256 - lrc_sum data) % 256

/-- modbus_lrc_verify: at least two bytes and the 8-bit sum over all of
them, the trailing LRC byte included, is zero. -/
def modbus_lrc_verify (data : List Nat) : Bool :=
  if 2 ≤ data.length then decide (lrc_sum data = 0) else false

/-- ascii_to_nibble from modbus_lrc.c; the C sentinel value -1 becomes
Option.none. Characters are modelled by their ASCII codes. -/
def ascii_to_nibble (c : Nat) : Option Nat :=
  if 48 ≤ c ∧ c ≤ 57 then some (c - 48)
  else if 65 ≤ c ∧ c ≤ 70 then some (c - 65 + 10)
  else if 97 ≤ c ∧ c ≤ 102 then some (c - 97 + 10)
  else none

/-- modbus_ascii_to_byte: combine two hex characters into one byte. -/
def modbus_ascii_to_byte (high_char low_char : Nat) :
    Except modbus_error_t Nat :=
  match ascii_to_nibble high_char, ascii_to_nibble low_char with
  | some high_nibble, some low_nibble =>
      Except.ok (high_nibble * 16 + low_nibble)
  | _, _ => Except.error .MODBUS_ERROR_FRAME

/-- The conversion loop of modbus_ascii_to_binary: consume the characters
two at a time; any invalid pair aborts the whole conversion. -/
def ascii_pairs_to_binary : List Nat → Option (List Nat)
  | [] => some []
  | [_] => none
  | high_char :: low_char :: rest =>
      match modbus_ascii_to_byte high_char low_char with
      | .ok byte => (ascii_pairs_to_binary rest).map (fun bs => byte :: bs)
      | .error _ => none

/-- modbus_ascii_to_binary: returns the decoded bytes, or none where the C
function returns 0 (empty input, odd length, undersized output buffer, or an
invalid hex character). -/
def modbus_ascii_to_binary (ascii : List Nat) (binary_size : Nat) :
    Option (List Nat) :=
  if 0 < ascii.length ∧ ascii.length % 2 = 0 then
    if ascii.length / 2 ≤ binary_size then
      ascii_pairs_to_binary ascii
    else
      none
  else
    none

/-! ## RTU timing (modbus_rtu.c) -/

/-- modbus_rtu_get_interframe_delay_us: the 3.5-character inter-frame delay
for a baud rate, with the fixed 1750 microsecond value above 19200 baud and
for the invalid baud rate 0. -/
def modbus_rtu_get_interframe_delay_us (baudrate : Nat) : Nat :=
  if baudrate = 0 then 1750
  else if baudrate > 19200 then 1750
  else (38500000 + baudrate / 2) / baudrate

/-! ## TCP framing (modbus_tcp.c) -/

/-- MBAP header size (transaction id, protocol id, length, unit id). -/
def MODBUS_TCP_MBAP_SIZE : Nat := 7

/-- modbus_tcp_parse_frame. The frame is a byte list read through getD,
mirroring the C array indexing; frame_length is the caller-supplied length,
as in the C signature. -/
def modbus_tcp_parse_frame (frame : List Nat) (frame_length : Nat) :
    Except modbus_error_t modbus_adu_t :=
  if frame_length < 8 then
    Except.error .MODBUS_ERROR_FRAME
  else if frame_length > 260 then
    Except.error .MODBUS_ERROR_FRAME
  else
    let protocol_id := pdu_read_uint16_be frame 2
    if protocol_id ≠ 0 then
      Except.error .MODBUS_ERROR_FRAME
    else
      let length_field := pdu_read_uint16_be frame 4
      if MODBUS_TCP_MBAP_SIZE - 1 + length_field ≠ frame_length then
        Except.error .MODBUS_ERROR_FRAME
      else
        match modbus_pdu_deserialize (frame.drop 7) (length_field - 1) with
        | .ok pdu =>
            Except.ok
              { unit_id := frame.getD 6 0
                pdu := pdu
                transaction_id := pdu_read_uint16_be frame 0
                protocol_id := protocol_id }
        | .error e => Except.error e

/-! ## ASCII framing (modbus_ascii.c) -/

/-- Maximum binary data length of the ASCII framer's local buffer
(MODBUS_ASCII_MAX_BINARY_LEN): one address byte plus a maximum PDU. -/
def MODBUS_ASCII_MAX_BINARY_LEN : Nat := 254

/-- modbus_ascii_parse_frame. Start colon (58), CR (13) LF (10) trailer,
even hex body, LRC check, then PDU deserialization; the parse buffer is one
byte larger than MODBUS_ASCII_MAX_BINARY_LEN to make room for the LRC. -/
def modbus_ascii_parse_frame (frame : List Nat) (frame_length : Nat) :
    Except modbus_error_t modbus_adu_t :=
  if frame_length < 9 then
    Except.error .MODBUS_ERROR_FRAME
  else if frame.getD 0 0 ≠ 58 then
    Except.error .MODBUS_ERROR_FRAME
  else if frame.getD (frame_length - 2) 0 ≠ 13 ∨
      frame.getD (frame_length - 1) 0 ≠ 10 then
    Except.error .MODBUS_ERROR_FRAME
  else
    let hex_len := frame_length - 3
    if hex_len % 2 ≠ 0 then
      Except.error .MODBUS_ERROR_FRAME
    else
      match modbus_ascii_to_binary ((frame.drop 1).take hex_len)
          (MODBUS_ASCII_MAX_BINARY_LEN + 1) with
      | none => Except.error .MODBUS_ERROR_FRAME
      | some binary_buffer =>
          if ¬ modbus_lrc_verify binary_buffer then
            Except.error .MODBUS_ERROR_CRC
          else
            match modbus_pdu_deserialize (binary_buffer.drop 1)
                (binary_buffer.length - 2) with
            | .ok pdu =>
                Except.ok
                  { unit_id := binary_buffer.headD 0
                    pdu := pdu
                    transaction_id := 0
                    protocol_id := 0 }
            | .error e => Except.error e

/-- The index of the local binary_buffer of modbus_ascii_build_frame at
which the LRC byte is stored: binary_len = 1 (address) + pdu_len bytes have
been filled, and the store is binary_buffer[binary_len]. -/
def ascii_build_lrc_index (adu : modbus_adu_t) : Nat :=
  2 + adu.pdu.data_length

/-- All indices of the 254-byte local binary_buffer that
modbus_ascii_build_frame writes: index 0 for the address byte, indices
1 up to pdu_len for the serialized PDU, and the LRC store. When the PDU
serialization fails only index 0 has been written. -/
def ascii_build_binary_accesses (adu : modbus_adu_t) : List Nat :=
  match modbus_pdu_serialize adu.pdu (MODBUS_ASCII_MAX_BINARY_LEN - 1) with
  | .error _ => [0]
  | .ok out => 0 :: ((List.range out.length).map (fun i => 1 + i) ++ [1 + out.length])

/-- Whether every binary_buffer access of modbus_ascii_build_frame is in
bounds of its 254-byte declaration. -/
def ascii_build_accesses_in_bounds (adu : modbus_adu_t) : Bool :=
  (ascii_build_binary_accesses adu).all (fun i => i < MODBUS_ASCII_MAX_BINARY_LEN)

/-! ## Server core (modbus_core.c) -/

/-- The application data-access callbacks of modbus_callbacks.h, as a record
of pure functions. Read callbacks return the exception code together with
the buffer contents they produced. -/
structure modbus_callbacks where
  read_coils : Nat → Nat → modbus_exception_t × List Nat
  read_discrete_inputs : Nat → Nat → modbus_exception_t × List Nat
  read_holding_registers : Nat → Nat → modbus_exception_t × List Nat
  read_input_registers : Nat → Nat → modbus_exception_t × List Nat
  write_single_coil : Nat → Bool → modbus_exception_t
  write_single_register : Nat → Nat → modbus_exception_t
  write_multiple_coils : Nat → Nat → List Nat → modbus_exception_t
  write_multiple_registers : Nat → Nat → List Nat → modbus_exception_t

/-- One callback invocation, recorded with its arguments. -/
inductive modbus_cb_call where
  | readCoils (start_address quantity : Nat)
  | readDiscreteInputs (start_address quantity : Nat)
  | readHoldingRegisters (start_address quantity : Nat)
  | readInputRegisters (start_address quantity : Nat)
  | writeSingleCoil (address : Nat) (value : Bool)
  | writeSingleRegister (address value : Nat)
  | writeMultipleCoils (start_address quantity : Nat) (values : List Nat)
  | writeMultipleRegisters (start_address quantity : Nat) (values : List Nat)
  deriving Repr, DecidableEq

/-- Result of one PDU processing step: the updated context, the returned
modbus_error_t, the response PDU the C code wrote through its out-parameter
(none when the encode step failed and left it unwritten), and the callback
invocations performed. -/
structure PduResult where
  ctx : modbus_context
  err : modbus_error_t
  response : Option modbus_pdu_t
  calls : List modbus_cb_call
  deriving Repr, DecidableEq

/-- Unpack an encode result into the returned error and the written
response. -/
def encResult (e : Except modbus_error_t modbus_pdu_t) :
    modbus_error_t × Option modbus_pdu_t :=
  match e with
  | .ok p => (.MODBUS_OK, some p)
  | .error err => (err, none)

/-- process_read_coils (FC01). MAX_READ_COILS is 2000. -/
def process_read_coils (cbs : modbus_callbacks) (ctx : modbus_context)
    (request : modbus_pdu_t) : PduResult :=
  match modbus_pdu_decode_read_bits_request request with
  | .error _ =>
      ⟨ctx, .MODBUS_OK,
        some (modbus_pdu_encode_exception 1 .MODBUS_EXCEPTION_ILLEGAL_DATA_VALUE), []⟩
  | .ok (start_address, quantity) =>
      if quantity = 0 ∨ quantity > 2000 then
        ⟨ctx, .MODBUS_OK,
          some (modbus_pdu_encode_exception 1 .MODBUS_EXCEPTION_ILLEGAL_DATA_VALUE), []⟩
      else
        let exception := (cbs.read_coils start_address quantity).1
        let ctx := { ctx with coil_buffer := (cbs.read_coils start_address quantity).2 }
        if exception ≠ .MODBUS_EXCEPTION_NONE then
          ⟨{ ctx with exceptions_sent := ctx.exceptions_sent + 1 }, .MODBUS_OK,
            some (modbus_pdu_encode_exception 1 exception),
            [.readCoils start_address quantity]⟩
        else
          let (err, resp) := encResult
            (modbus_pdu_encode_read_bits_response 1 ctx.coil_buffer quantity)
          ⟨ctx, err, resp, [.readCoils start_address quantity]⟩

/-- process_read_discrete_inputs (FC02). -/
def process_read_discrete_inputs (cbs : modbus_callbacks) (ctx : modbus_context)
    (request : modbus_pdu_t) : PduResult :=
  match modbus_pdu_decode_read_bits_request request with
  | .error _ =>
      ⟨ctx, .MODBUS_OK,
        some (modbus_pdu_encode_exception 2 .MODBUS_EXCEPTION_ILLEGAL_DATA_VALUE), []⟩
  | .ok (start_address, quantity) =>
      if quantity = 0 ∨ quantity > 2000 then
        ⟨ctx, .MODBUS_OK,
          some (modbus_pdu_encode_exception 2 .MODBUS_EXCEPTION_ILLEGAL_DATA_VALUE), []⟩
      else
        let exception := (cbs.read_discrete_inputs start_address quantity).1
        let ctx := { ctx with coil_buffer := (cbs.read_discrete_inputs start_address quantity).2 }
        if exception ≠ .MODBUS_EXCEPTION_NONE then
          ⟨{ ctx with exceptions_sent := ctx.exceptions_sent + 1 }, .MODBUS_OK,
            some (modbus_pdu_encode_exception 2 exception),
            [.readDiscreteInputs start_address quantity]⟩
        else
          let (err, resp) := encResult
            (modbus_pdu_encode_read_bits_response 2 ctx.coil_buffer quantity)
          ⟨ctx, err, resp, [.readDiscreteInputs start_address quantity]⟩

/-- process_read_holding_registers (FC03). MAX_READ_REGISTERS is 125. -/
def process_read_holding_registers (cbs : modbus_callbacks) (ctx : modbus_context)
    (request : modbus_pdu_t) : PduResult :=
  match modbus_pdu_decode_read_registers_request request with
  | .error _ =>
      ⟨ctx, .MODBUS_OK,
        some (modbus_pdu_encode_exception 3 .MODBUS_EXCEPTION_ILLEGAL_DATA_VALUE), []⟩
  | .ok (start_address, quantity) =>
      if quantity = 0 ∨ quantity > 125 then
        ⟨ctx, .MODBUS_OK,
          some (modbus_pdu_encode_exception 3 .MODBUS_EXCEPTION_ILLEGAL_DATA_VALUE), []⟩
      else
        let exception := (cbs.read_holding_registers start_address quantity).1
        let ctx := { ctx with register_buffer := (cbs.read_holding_registers start_address quantity).2 }
        if exception ≠ .MODBUS_EXCEPTION_NONE then
          ⟨{ ctx with exceptions_sent := ctx.exceptions_sent + 1 }, .MODBUS_OK,
            some (modbus_pdu_encode_exception 3 exception),
            [.readHoldingRegisters start_address quantity]⟩
        else
          let (err, resp) := encResult
            (modbus_pdu_encode_read_registers_response 3 ctx.register_buffer quantity)
          ⟨ctx, err, resp, [.readHoldingRegisters start_address quantity]⟩

/-- process_read_input_registers (FC04). -/
def process_read_input_registers (cbs : modbus_callbacks) (ctx : modbus_context)
    (request : modbus_pdu_t) : PduResult :=
  match modbus_pdu_decode_read_registers_request request with
  | .error _ =>
      ⟨ctx, .MODBUS_OK,
        some (modbus_pdu_encode_exception 4 .MODBUS_EXCEPTION_ILLEGAL_DATA_VALUE), []⟩
  | .ok (start_address, quantity) =>
      if quantity = 0 ∨ quantity > 125 then
        ⟨ctx, .MODBUS_OK,
          some (modbus_pdu_encode_exception 4 .MODBUS_EXCEPTION_ILLEGAL_DATA_VALUE), []⟩
      else
        let exception := (cbs.read_input_registers start_address quantity).1
        let ctx := { ctx with register_buffer := (cbs.read_input_registers start_address quantity).2 }
        if exception ≠ .MODBUS_EXCEPTION_NONE then
          ⟨{ ctx with exceptions_sent := ctx.exceptions_sent + 1 }, .MODBUS_OK,
            some (modbus_pdu_encode_exception 4 exception),
            [.readInputRegisters start_address quantity]⟩
        else
          let (err, resp) := encResult
            (modbus_pdu_encode_read_registers_response 4 ctx.register_buffer quantity)
          ⟨ctx, err, resp, [.readInputRegisters start_address quantity]⟩

/-- process_write_single_coil (FC05). The context is not modified and the
exceptions counter is not incremented in this handler. -/
def process_write_single_coil (cbs : modbus_callbacks) (ctx : modbus_context)
    (request : modbus_pdu_t) : PduResult :=
  match modbus_pdu_decode_write_single_coil_request request with
  | .error _ =>
      ⟨ctx, .MODBUS_OK,
        some (modbus_pdu_encode_exception 5 .MODBUS_EXCEPTION_ILLEGAL_DATA_VALUE), []⟩
  | .ok (address, value) =>
      let exception := cbs.write_single_coil address value
      if exception ≠ .MODBUS_EXCEPTION_NONE then
        ⟨ctx, .MODBUS_OK,
          some (modbus_pdu_encode_exception 5 exception),
          [.writeSingleCoil address value]⟩
      else
        ⟨ctx, .MODBUS_OK,
          some (modbus_pdu_encode_write_single_response 5 address
            (if value then 65280 else 0)),
          [.writeSingleCoil address value]⟩

/-- process_write_single_register (FC06). The context is not modified and
the exceptions counter is not incremented in this handler. -/
def process_write_single_register (cbs : modbus_callbacks) (ctx : modbus_context)
    (request : modbus_pdu_t) : PduResult :=
  match modbus_pdu_decode_write_single_register_request request with
  | .error _ =>
      ⟨ctx, .MODBUS_OK,
        some (modbus_pdu_encode_exception 6 .MODBUS_EXCEPTION_ILLEGAL_DATA_VALUE), []⟩
  | .ok (address, value) =>
      let exception := cbs.write_single_register address value
      if exception ≠ .MODBUS_EXCEPTION_NONE then
        ⟨ctx, .MODBUS_OK,
          some (modbus_pdu_encode_exception 6 exception),
          [.writeSingleRegister address value]⟩
      else
        ⟨ctx, .MODBUS_OK,
          some (modbus_pdu_encode_write_single_response 6 address value),
          [.writeSingleRegister address value]⟩

/-- process_write_multiple_coils (FC15). MAX_WRITE_COILS is 1968. The
exceptions counter is not incremented in this handler. -/
def process_write_multiple_coils (cbs : modbus_callbacks) (ctx : modbus_context)
    (request : modbus_pdu_t) : PduResult :=
  match modbus_pdu_decode_write_multiple_coils_request request with
  | .error _ =>
      ⟨ctx, .MODBUS_OK,
        some (modbus_pdu_encode_exception 15 .MODBUS_EXCEPTION_ILLEGAL_DATA_VALUE), []⟩
  | .ok (start_address, quantity, values) =>
      if quantity = 0 ∨ quantity > 1968 then
        ⟨ctx, .MODBUS_OK,
          some (modbus_pdu_encode_exception 15 .MODBUS_EXCEPTION_ILLEGAL_DATA_VALUE), []⟩
      else
        let exception := cbs.write_multiple_coils start_address quantity values
        if exception ≠ .MODBUS_EXCEPTION_NONE then
          ⟨ctx, .MODBUS_OK,
            some (modbus_pdu_encode_exception 15 exception),
            [.writeMultipleCoils start_address quantity values]⟩
        else
          ⟨ctx, .MODBUS_OK,
            some (modbus_pdu_encode_write_multiple_response 15 start_address quantity),
            [.writeMultipleCoils start_address quantity values]⟩

/-- process_write_multiple_registers (FC16). MAX_WRITE_REGISTERS is 123; the
decode step writes the decoded values into the context's register scratch
buffer. The exceptions counter is not incremented in this handler. -/
def process_write_multiple_registers (cbs : modbus_callbacks) (ctx : modbus_context)
    (request : modbus_pdu_t) : PduResult :=
  match modbus_pdu_decode_write_multiple_registers_request request 123 with
  | .error _ =>
      ⟨ctx, .MODBUS_OK,
        some (modbus_pdu_encode_exception 16 .MODBUS_EXCEPTION_ILLEGAL_DATA_VALUE), []⟩
  | .ok (start_address, quantity, values) =>
      let ctx := { ctx with
        register_buffer := values ++ ctx.register_buffer.drop values.length }
      if quantity = 0 ∨ quantity > 123 then
        ⟨ctx, .MODBUS_OK,
          some (modbus_pdu_encode_exception 16 .MODBUS_EXCEPTION_ILLEGAL_DATA_VALUE), []⟩
      else
        let exception := cbs.write_multiple_registers start_address quantity values
        if exception ≠ .MODBUS_EXCEPTION_NONE then
          ⟨ctx, .MODBUS_OK,
            some (modbus_pdu_encode_exception 16 exception),
            [.writeMultipleRegisters start_address quantity values]⟩
        else
          ⟨ctx, .MODBUS_OK,
            some (modbus_pdu_encode_write_multiple_response 16 start_address quantity),
            [.writeMultipleRegisters start_address quantity values]⟩

/-- The switch statement of modbus_slave_process_pdu: dispatch on the
function code (READ_COILS 1, READ_DISCRETE_INPUTS 2, READ_HOLDING_REGISTERS
3, READ_INPUT_REGISTERS 4, WRITE_SINGLE_COIL 5, WRITE_SINGLE_REGISTER 6,
WRITE_MULTIPLE_COILS 15, WRITE_MULTIPLE_REGISTERS 16); an unsupported code
increments the exceptions counter and encodes an IllegalFunction
exception. -/
def dispatch_pdu (cbs : modbus_callbacks) (ctx : modbus_context)
    (request : modbus_pdu_t) : PduResult :=
  if request.function_code = 1 then process_read_coils cbs ctx request
  else if request.function_code = 2 then process_read_discrete_inputs cbs ctx request
  else if request.function_code = 3 then process_read_holding_registers cbs ctx request
  else if request.function_code = 4 then process_read_input_registers cbs ctx request
  else if request.function_code = 5 then process_write_single_coil cbs ctx request
  else if request.function_code = 6 then process_write_single_register cbs ctx request
  else if request.function_code = 15 then process_write_multiple_coils cbs ctx request
  else if request.function_code = 16 then process_write_multiple_registers cbs ctx request
  else
    ⟨{ ctx with exceptions_sent := ctx.exceptions_sent + 1 }, .MODBUS_OK,
      some (modbus_pdu_encode_exception request.function_code
        .MODBUS_EXCEPTION_ILLEGAL_FUNCTION), []⟩

/-- The error accounting at the end of modbus_slave_process_pdu: a non-OK
handler result increments the errors counter. -/
def count_pdu_error (r : PduResult) : PduResult :=
  if r.err = .MODBUS_OK then r
  else { r with ctx := { r.ctx with errors_count := r.ctx.errors_count + 1 } }

/-- modbus_slave_process_pdu: reject an uninitialized context, increment the
requests counter, dispatch on the function code, account errors. -/
def modbus_slave_process_pdu (cbs : modbus_callbacks) (ctx : modbus_context)
    (request : modbus_pdu_t) : PduResult :=
  if ctx.initialized = true then
    count_pdu_error (dispatch_pdu cbs
      { ctx with requests_processed := ctx.requests_processed + 1 } request)
  else
    ⟨ctx, .MODBUS_ERROR_NOT_INITIALIZED, none, []⟩

/-- Result of modbus_slave_process_adu: the updated context, the returned
error, the response ADU written through the out-parameter (none when it was
left unwritten), the send_response flag, and the callback invocations. -/
structure AduResult where
  ctx : modbus_context
  err : modbus_error_t
  response : Option modbus_adu_t
  send_response : Bool
  calls : List modbus_cb_call
  deriving Repr, DecidableEq

/-- The tail of modbus_slave_process_adu after the PDU step: on MODBUS_OK
copy the addressing information into the response and apply the broadcast
rule send_response = (unit_id not 0); on any other error report it with
send_response false and the response out-parameter unwritten. The MODBUS_OK
and no-response combination is unreachable because a MODBUS_OK PDU step
always produces a response. -/
def adu_finish (ctx : modbus_context) (request : modbus_adu_t)
    (r : PduResult) : AduResult :=
  if r.err = .MODBUS_OK then
    match r.response with
    | some p =>
        ⟨r.ctx, .MODBUS_OK,
          some { unit_id := ctx.config.unit_id
                 pdu := p
                 transaction_id := request.transaction_id
                 protocol_id := request.protocol_id },
          request.unit_id != 0, r.calls⟩
    | none => ⟨r.ctx, r.err, none, false, r.calls⟩
  else
    ⟨r.ctx, r.err, none, false, r.calls⟩

/-- modbus_slave_process_adu: unit-id filtering (a request whose unit id is
neither the configured one nor 0 is ignored with MODBUS_OK and no
response), then PDU processing and response addressing. -/
def modbus_slave_process_adu (cbs : modbus_callbacks) (ctx : modbus_context)
    (request : modbus_adu_t) : AduResult :=
  if request.unit_id ≠ ctx.config.unit_id ∧ request.unit_id ≠ 0 then
    ⟨ctx, .MODBUS_OK, none, false, []⟩
  else
    adu_finish ctx request (modbus_slave_process_pdu cbs ctx request.pdu)

/-- The exception outcome of the callback a request reaches: following the
guard structure of the dispatch in modbus_core.c, this is some e exactly
when the request decodes, passes the quantity validation of its function
code, and the invoked callback returns the non-None exception e; in every
other case it is none. -/
def callback_exception_result (cbs : modbus_callbacks) (request : modbus_pdu_t) :
    Option modbus_exception_t :=
  if request.function_code = 1 then
    match modbus_pdu_decode_read_bits_request request with
    | .ok (s, q) =>
        if q = 0 ∨ q > 2000 then none
        else if (cbs.read_coils s q).1 ≠ .MODBUS_EXCEPTION_NONE then
          some (cbs.read_coils s q).1
        else none
    | .error _ => none
  else if request.function_code = 2 then
    match modbus_pdu_decode_read_bits_request request with
    | .ok (s, q) =>
        if q = 0 ∨ q > 2000 then none
        else if (cbs.read_discrete_inputs s q).1 ≠ .MODBUS_EXCEPTION_NONE then
          some (cbs.read_discrete_inputs s q).1
        else none
    | .error _ => none
  else if request.function_code = 3 then
    match modbus_pdu_decode_read_registers_request request with
    | .ok (s, q) =>
        if q = 0 ∨ q > 125 then none
        else if (cbs.read_holding_registers s q).1 ≠ .MODBUS_EXCEPTION_NONE then
          some (cbs.read_holding_registers s q).1
        else none
    | .error _ => none
  else if request.function_code = 4 then
    match modbus_pdu_decode_read_registers_request request with
    | .ok (s, q) =>
        if q = 0 ∨ q > 125 then none
        else if (cbs.read_input_registers s q).1 ≠ .MODBUS_EXCEPTION_NONE then
          some (cbs.read_input_registers s q).1
        else none
    | .error _ => none
  else if request.function_code = 5 then
    match modbus_pdu_decode_write_single_coil_request request with
    | .ok (a, v) =>
        if cbs.write_single_coil a v ≠ .MODBUS_EXCEPTION_NONE then
          some (cbs.write_single_coil a v)
        else none
    | .error _ => none
  else if request.function_code = 6 then
    match modbus_pdu_decode_write_single_register_request request with
    | .ok (a, v) =>
        if cbs.write_single_register a v ≠ .MODBUS_EXCEPTION_NONE then
          some (cbs.write_single_register a v)
        else none
    | .error _ => none
  else if request.function_code = 15 then
    match modbus_pdu_decode_write_multiple_coils_request request with
    | .ok (s, q, vs) =>
        if q = 0 ∨ q > 1968 then none
        else if cbs.write_multiple_coils s q vs ≠ .MODBUS_EXCEPTION_NONE then
          some (cbs.write_multiple_coils s q vs)
        else none
    | .error _ => none
  else if request.function_code = 16 then
    match modbus_pdu_decode_write_multiple_registers_request request 123 with
    | .ok (s, q, vs) =>
        if q = 0 ∨ q > 123 then none
        else if cbs.write_multiple_registers s q vs ≠ .MODBUS_EXCEPTION_NONE then
          some (cbs.write_multiple_registers s q vs)
        else none
    | .error _ => none
  else none

/-- How much one callback-returned exception advances the exceptions
counter, per function code: the read handlers (FC01 to FC04) increment it,
the write handlers (FC05, FC06, FC15, FC16) do not. -/
def exception_counter_delta (function_code : Nat) : Nat :=
  if function_code = 1 ∨ function_code = 2 ∨ function_code = 3 ∨
      function_code = 4 then 1 else 0

/-! ## Concrete sample data used by witnesses -/

/-- A concrete callback record whose data-access callbacks all report
IllegalDataAddress, used to exhibit exception paths. -/
def sample_exception_callbacks : modbus_callbacks :=
  { read_coils := fun _ _ => (.MODBUS_EXCEPTION_ILLEGAL_DATA_ADDRESS, List.replicate 256 0)
    read_discrete_inputs := fun _ _ => (.MODBUS_EXCEPTION_ILLEGAL_DATA_ADDRESS, List.replicate 256 0)
    read_holding_registers := fun _ _ => (.MODBUS_EXCEPTION_ILLEGAL_DATA_ADDRESS, List.replicate 125 0)
    read_input_registers := fun _ _ => (.MODBUS_EXCEPTION_ILLEGAL_DATA_ADDRESS, List.replicate 125 0)
    write_single_coil := fun _ _ => .MODBUS_EXCEPTION_ILLEGAL_DATA_ADDRESS
    write_single_register := fun _ _ => .MODBUS_EXCEPTION_ILLEGAL_DATA_ADDRESS
    write_multiple_coils := fun _ _ _ => .MODBUS_EXCEPTION_ILLEGAL_DATA_ADDRESS
    write_multiple_registers := fun _ _ _ => .MODBUS_EXCEPTION_ILLEGAL_DATA_ADDRESS }

/-- A concrete callback record whose callbacks all succeed. -/
def sample_ok_callbacks : modbus_callbacks :=
  { read_coils := fun _ _ => (.MODBUS_EXCEPTION_NONE, List.replicate 256 0)
    read_discrete_inputs := fun _ _ => (.MODBUS_EXCEPTION_NONE, List.replicate 256 0)
    read_holding_registers := fun _ _ => (.MODBUS_EXCEPTION_NONE, List.replicate 125 0)
    read_input_registers := fun _ _ => (.MODBUS_EXCEPTION_NONE, List.replicate 125 0)
    write_single_coil := fun _ _ => .MODBUS_EXCEPTION_NONE
    write_single_register := fun _ _ => .MODBUS_EXCEPTION_NONE
    write_multiple_coils := fun _ _ _ => .MODBUS_EXCEPTION_NONE
    write_multiple_registers := fun _ _ _ => .MODBUS_EXCEPTION_NONE }

/-- A freshly initialized server context with unit id 1. -/
def sample_ctx : modbus_context := modbus_init ⟨1⟩

/-! ## Helper lemmas -/

/-- The uint8_t accumulator of the LRC loop stays below 256. -/
theorem lrc_foldl_lt (data : List Nat) (s : Nat) (hs : s < 256) :
    data.foldl (fun s b => (s + b) % 256) s < 256 := by
  induction data generalizing s with
  | nil => exact hs
  | cons x xs ih => exact ih _ (Nat.mod_lt _ (by norm_num))

/-- The LRC sum is below 256. -/
theorem lrc_sum_lt (data : List Nat) : lrc_sum data < 256 :=
  lrc_foldl_lt data 0 (by norm_num)

/-- Appending one byte to the LRC sum adds it modulo 256. -/
theorem lrc_sum_append_single (data : List Nat) (x : Nat) :
    lrc_sum (data ++ [x]) = (lrc_sum data + x) % 256 := by
  unfold lrc_sum
  rw [List.foldl_append]
  rfl

/-- With a quantity of at most 2000 the read-bits response encoder cannot
overflow the PDU. -/
theorem encode_read_bits_response_ok (function_code : Nat) (vals : List Nat)
    (q : Nat) (hq : q ≤ 2000) :
    ∃ p, modbus_pdu_encode_read_bits_response function_code vals q =
      Except.ok p := by
  simp only [modbus_pdu_encode_read_bits_response, MODBUS_MAX_PDU_SIZE]
  rw [if_pos (by omega)]
  exact ⟨_, rfl⟩

/-- With a quantity of at most 125 the read-registers response encoder
cannot overflow the PDU. -/
theorem encode_read_registers_response_ok (function_code : Nat)
    (vals : List Nat) (q : Nat) (hq : q ≤ 125) :
    ∃ p, modbus_pdu_encode_read_registers_response function_code vals q =
      Except.ok p := by
  simp only [modbus_pdu_encode_read_registers_response, MODBUS_MAX_PDU_SIZE]
  rw [if_pos (by omega)]
  exact ⟨_, rfl⟩

/-- process_read_coils always returns MODBUS_OK and writes a response. -/
theorem process_read_coils_ok (cbs : modbus_callbacks) (ctx : modbus_context)
    (request : modbus_pdu_t) :
    (process_read_coils cbs ctx request).err = .MODBUS_OK ∧
    (process_read_coils cbs ctx request).response.isSome = true := by
  cases hdec : modbus_pdu_decode_read_bits_request request with
  | error e => simp [process_read_coils, hdec]
  | ok p =>
      obtain ⟨s, q⟩ := p
      simp only [process_read_coils, hdec]
      by_cases hq : q = 0 ∨ q > 2000
      · simp [hq]
      · obtain ⟨p', hp'⟩ := encode_read_bits_response_ok 1
          ((cbs.read_coils s q).2) q (by omega)
        by_cases hexc : (cbs.read_coils s q).1 ≠ .MODBUS_EXCEPTION_NONE
        <;> simp [hq, hexc, hp', encResult]

/-- process_read_discrete_inputs always returns MODBUS_OK and writes a
response. -/
theorem process_read_discrete_inputs_ok (cbs : modbus_callbacks)
    (ctx : modbus_context) (request : modbus_pdu_t) :
    (process_read_discrete_inputs cbs ctx request).err = .MODBUS_OK ∧
    (process_read_discrete_inputs cbs ctx request).response.isSome = true := by
  cases hdec : modbus_pdu_decode_read_bits_request request with
  | error e => simp [process_read_discrete_inputs, hdec]
  | ok p =>
      obtain ⟨s, q⟩ := p
      simp only [process_read_discrete_inputs, hdec]
      by_cases hq : q = 0 ∨ q > 2000
      · simp [hq]
      · obtain ⟨p', hp'⟩ := encode_read_bits_response_ok 2
          ((cbs.read_discrete_inputs s q).2) q (by omega)
        by_cases hexc : (cbs.read_discrete_inputs s q).1 ≠ .MODBUS_EXCEPTION_NONE
        <;> simp [hq, hexc, hp', encResult]

/-- process_read_holding_registers always returns MODBUS_OK and writes a
response. -/
theorem process_read_holding_registers_ok (cbs : modbus_callbacks)
    (ctx : modbus_context) (request : modbus_pdu_t) :
    (process_read_holding_registers cbs ctx request).err = .MODBUS_OK ∧
    (process_read_holding_registers cbs ctx request).response.isSome = true := by
  cases hdec : modbus_pdu_decode_read_registers_request request with
  | error e => simp [process_read_holding_registers, hdec]
  | ok p =>
      obtain ⟨s, q⟩ := p
      simp only [process_read_holding_registers, hdec]
      by_cases hq : q = 0 ∨ q > 125
      · simp [hq]
      · obtain ⟨p', hp'⟩ := encode_read_registers_response_ok 3
          ((cbs.read_holding_registers s q).2) q (by omega)
        by_cases hexc : (cbs.read_holding_registers s q).1 ≠ .MODBUS_EXCEPTION_NONE
        <;> simp [hq, hexc, hp', encResult]

/-- process_read_input_registers always returns MODBUS_OK and writes a
response. -/
theorem process_read_input_registers_ok (cbs : modbus_callbacks)
    (ctx : modbus_context) (request : modbus_pdu_t) :
    (process_read_input_registers cbs ctx request).err = .MODBUS_OK ∧
    (process_read_input_registers cbs ctx request).response.isSome = true := by
  cases hdec : modbus_pdu_decode_read_registers_request request with
  | error e => simp [process_read_input_registers, hdec]
  | ok p =>
      obtain ⟨s, q⟩ := p
      simp only [process_read_input_registers, hdec]
      by_cases hq : q = 0 ∨ q > 125
      · simp [hq]
      · obtain ⟨p', hp'⟩ := encode_read_registers_response_ok 4
          ((cbs.read_input_registers s q).2) q (by omega)
        by_cases hexc : (cbs.read_input_registers s q).1 ≠ .MODBUS_EXCEPTION_NONE
        <;> simp [hq, hexc, hp', encResult]

/-- process_write_single_coil always returns MODBUS_OK and writes a
response. -/
theorem process_write_single_coil_ok (cbs : modbus_callbacks)
    (ctx : modbus_context) (request : modbus_pdu_t) :
    (process_write_single_coil cbs ctx request).err = .MODBUS_OK ∧
    (process_write_single_coil cbs ctx request).response.isSome = true := by
  cases hdec : modbus_pdu_decode_write_single_coil_request request with
  | error e => simp [process_write_single_coil, hdec]
  | ok p =>
      obtain ⟨a, v⟩ := p
      simp only [process_write_single_coil, hdec]
      by_cases hexc : cbs.write_single_coil a v ≠ .MODBUS_EXCEPTION_NONE
       <;> simp [hexc]

/-- process_write_single_register always returns MODBUS_OK and writes a
response. -/
theorem process_write_single_register_ok (cbs : modbus_callbacks)
    (ctx : modbus_context) (request : modbus_pdu_t) :
    (process_write_single_register cbs ctx request).err = .MODBUS_OK ∧
    (process_write_single_register cbs ctx request).response.isSome = true := by
  cases hdec : modbus_pdu_decode_write_single_register_request request with
  | error e => simp [process_write_single_register, hdec]
  | ok p =>
      obtain ⟨a, v⟩ := p
      simp only [process_write_single_register, hdec]
      by_cases hexc : cbs.write_single_register a v ≠ .MODBUS_EXCEPTION_NONE
       <;> simp [hexc]

/-- process_write_multiple_coils always returns MODBUS_OK and writes a
response. -/
theorem process_write_multiple_coils_ok (cbs : modbus_callbacks)
    (ctx : modbus_context) (request : modbus_pdu_t) :
    (process_write_multiple_coils cbs ctx request).err = .MODBUS_OK ∧
    (process_write_multiple_coils cbs ctx request).response.isSome = true := by
  cases hdec : modbus_pdu_decode_write_multiple_coils_request request with
  | error e => simp [process_write_multiple_coils, hdec]
  | ok p =>
      obtain ⟨s, q, vs⟩ := p
      simp only [process_write_multiple_coils, hdec]
      by_cases hq : q = 0 ∨ q > 1968
      · simp [hq]
      · by_cases hexc : cbs.write_multiple_coils s q vs ≠ .MODBUS_EXCEPTION_NONE
         <;> simp [hq, hexc]

/-- process_write_multiple_registers always returns MODBUS_OK and writes a
response. -/
theorem process_write_multiple_registers_ok (cbs : modbus_callbacks)
    (ctx : modbus_context) (request : modbus_pdu_t) :
    (process_write_multiple_registers cbs ctx request).err = .MODBUS_OK ∧
    (process_write_multiple_registers cbs ctx request).response.isSome = true := by
  cases hdec : modbus_pdu_decode_write_multiple_registers_request request 123 with
  | error e => simp [process_write_multiple_registers, hdec]
  | ok p =>
      obtain ⟨s, q, vs⟩ := p
      simp only [process_write_multiple_registers, hdec]
      by_cases hq : q = 0 ∨ q > 123
      · simp [hq]
      · by_cases hexc : cbs.write_multiple_registers s q vs ≠ .MODBUS_EXCEPTION_NONE
         <;> simp [hq, hexc]

/-- Every branch of the function-code dispatch returns MODBUS_OK and writes
a response. -/
theorem dispatch_pdu_ok (cbs : modbus_callbacks) (ctx : modbus_context)
    (request : modbus_pdu_t) :
    (dispatch_pdu cbs ctx request).err = .MODBUS_OK ∧
    (dispatch_pdu cbs ctx request).response.isSome = true := by
  unfold dispatch_pdu
  split_ifs
  · exact process_read_coils_ok cbs ctx request
  · exact process_read_discrete_inputs_ok cbs ctx request
  · exact process_read_holding_registers_ok cbs ctx request
  · exact process_read_input_registers_ok cbs ctx request
  · exact process_write_single_coil_ok cbs ctx request
  · exact process_write_single_register_ok cbs ctx request
  · exact process_write_multiple_coils_ok cbs ctx request
  · exact process_write_multiple_registers_ok cbs ctx request
  · exact ⟨rfl, rfl⟩

/-- modbus_slave_process_pdu on an initialized context always returns
MODBUS_OK and writes a response PDU: every failure of the PDU step is
converted into an exception response. -/
theorem modbus_slave_process_pdu_ok (cbs : modbus_callbacks)
    (ctx : modbus_context) (request : modbus_pdu_t)
    (h : ctx.initialized = true) :
    (modbus_slave_process_pdu cbs ctx request).err = .MODBUS_OK ∧
    (modbus_slave_process_pdu cbs ctx request).response.isSome = true := by
  unfold modbus_slave_process_pdu
  rw [if_pos h]
  have hd := dispatch_pdu_ok cbs
    { ctx with requests_processed := ctx.requests_processed + 1 } request
  unfold count_pdu_error
  rw [if_pos hd.1]
  exact hd

/-! ## Claim theorems -/

/-- C8: for every non-empty byte sequence D, appending modbus_lrc D to D
and verifying the result with modbus_lrc_verify returns true. -/
theorem C8_lrc_verify_append (D : List Nat) (h : D ≠ []) :
    modbus_lrc_verify (D ++ [modbus_lrc D]) = true := by
  have hlen : 1 ≤ D.length := List.length_pos.mpr h
  unfold modbus_lrc_verify
  rw [if_pos (by simp; omega)]
  rw [decide_eq_true_iff]
  rw [lrc_sum_append_single]
  unfold modbus_lrc
  rw [if_neg h]
  have hb := lrc_sum_lt D
  omega

/-- Witness for C8 at the one-byte sequence containing 1. -/
theorem C8_lrc_verify_append_witness :
    modbus_lrc_verify ([1] ++ [modbus_lrc [1]]) = true :=
  C8_lrc_verify_append [1] (by decide)

/-- C9: the RTU inter-frame delay is within 100 microseconds of 2005 at
19200 baud, exactly 1750 microseconds for every baud rate above 19200, and
1750 microseconds at the invalid baud rate 0. -/
theorem C9_rtu_interframe_delay (baudrate : Nat) (hb : baudrate > 19200) :
    1905 ≤ modbus_rtu_get_interframe_delay_us 19200 ∧
    modbus_rtu_get_interframe_delay_us 19200 ≤ 2105 ∧
    modbus_rtu_get_interframe_delay_us baudrate = 1750 ∧
    modbus_rtu_get_interframe_delay_us 0 = 1750 := by
  refine ⟨by decide, by decide, ?_, by decide⟩
  unfold modbus_rtu_get_interframe_delay_us
  rw [if_neg (by omega), if_pos hb]

/-- Witness for C9 at 38400 baud. -/
theorem C9_rtu_interframe_delay_witness :
    1905 ≤ modbus_rtu_get_interframe_delay_us 19200 ∧
    modbus_rtu_get_interframe_delay_us 19200 ≤ 2105 ∧
    modbus_rtu_get_interframe_delay_us 38400 = 1750 ∧
    modbus_rtu_get_interframe_delay_us 0 = 1750 :=
  C9_rtu_interframe_delay 38400 (by decide)

/-- C10: modbus_pdu_deserialize rejects length 0 with the Frame error and
any length above 253 with the BufferOverflow error, for every input
buffer. -/
theorem C10_deserialize_length_errors (buffer : List Nat) (length : Nat)
    (h : 253 < length) :
    modbus_pdu_deserialize buffer 0 = .error .MODBUS_ERROR_FRAME ∧
    modbus_pdu_deserialize buffer length = .error .MODBUS_ERROR_BUFFER_OVERFLOW := by
  constructor
  · rfl
  · unfold modbus_pdu_deserialize MODBUS_MAX_PDU_SIZE
    rw [if_pos (by omega), if_neg (by omega)]

/-- Witness for C10 at the empty buffer and length 254. -/
theorem C10_deserialize_length_errors_witness :
    modbus_pdu_deserialize [] 0 = .error .MODBUS_ERROR_FRAME ∧
    modbus_pdu_deserialize [] 254 = .error .MODBUS_ERROR_BUFFER_OVERFLOW :=
  C10_deserialize_length_errors [] 254 (by decide)

/-- C5: a PDU whose data list realizes its data_length and whose
data_length is at most 252 serializes into any sufficiently large buffer,
and deserializing the written bytes reproduces it exactly. -/
theorem C5_pdu_serialize_deserialize_roundtrip (P : modbus_pdu_t)
    (buffer_size : Nat) (h1 : P.data_length ≤ 252)
    (h2 : P.data.length = P.data_length)
    (h3 : 1 + P.data_length ≤ buffer_size) :
    ∃ out, modbus_pdu_serialize P buffer_size = Except.ok out ∧
      modbus_pdu_deserialize out out.length = Except.ok P := by
  obtain ⟨fc, data, dl⟩ := P
  simp only at h1 h2 h3
  subst h2
  refine ⟨fc :: data.take data.length, ?_, ?_⟩
  · unfold modbus_pdu_serialize
    rw [if_pos (by simp only; omega)]
  · rw [List.take_length]
    unfold modbus_pdu_deserialize MODBUS_MAX_PDU_SIZE
    rw [if_pos (by simp), if_pos (by simp; omega)]
    simp

/-- Witness for C5 at a read-holding-registers request PDU. -/
theorem C5_pdu_serialize_deserialize_roundtrip_witness :
    ∃ out, modbus_pdu_serialize ⟨3, [0, 0, 0, 10], 4⟩ 253 = Except.ok out ∧
      modbus_pdu_deserialize out out.length =
        Except.ok (⟨3, [0, 0, 0, 10], 4⟩ : modbus_pdu_t) :=
  C5_pdu_serialize_deserialize_roundtrip ⟨3, [0, 0, 0, 10], 4⟩ 253
    (by decide) (by decide) (by decide)

/-- C6: the 12-byte TCP frame 00 01 00 00 00 06 01 03 00 00 00 0A parses to
transaction id 1, protocol id 0, unit id 1, function code 3 with data
00 00 00 0A; flipping the protocol id bytes to 00 01 yields the Frame
error, and a length field of 00 10 yields the Frame error. -/
theorem C6_tcp_parse_concrete :
    modbus_tcp_parse_frame [0, 1, 0, 0, 0, 6, 1, 3, 0, 0, 0, 10] 12 =
      Except.ok ⟨1, ⟨3, [0, 0, 0, 10], 4⟩, 1, 0⟩ ∧
    modbus_tcp_parse_frame [0, 1, 0, 1, 0, 6, 1, 3, 0, 0, 0, 10] 12 =
      Except.error .MODBUS_ERROR_FRAME ∧
    modbus_tcp_parse_frame [0, 1, 0, 0, 0, 16, 1, 3, 0, 0, 0, 10] 12 =
      Except.error .MODBUS_ERROR_FRAME := by
  decide

/-- C7 counterexample: the claimed frame has the fifteen hex characters
010300000000AF2 between the colon and CR LF; with an odd hex body the
parser returns the Frame error, so the parse does not succeed. -/
theorem C7_counterexample_odd_hex_body :
    modbus_ascii_parse_frame
      [58, 48, 49, 48, 51, 48, 48, 48, 48, 48, 48, 48, 48, 65, 70, 50, 13, 10]
      18 = Except.error .MODBUS_ERROR_FRAME := by
  decide

/-- C7 amended: the frame with the fourteen hex characters 01030000000AF2
between the colon and CR LF parses to unit id 1 and a function code 3 PDU
whose payload decodes to start address 0 and quantity 10, and the frame's
LRC byte 0xF2 is the LRC of the decoded address and PDU bytes. -/
theorem C7_ascii_parse_concrete :
    modbus_ascii_parse_frame
      [58, 48, 49, 48, 51, 48, 48, 48, 48, 48, 48, 48, 65, 70, 50, 13, 10]
      17 = Except.ok ⟨1, ⟨3, [0, 0, 0, 10], 4⟩, 0, 0⟩ ∧
    modbus_pdu_decode_read_registers_request ⟨3, [0, 0, 0, 10], 4⟩ =
      Except.ok (0, 10) ∧
    modbus_lrc [1, 3, 0, 0, 0, 10] = 242 := by
  decide

/-- C3: for the ADU whose PDU carries 252 data bytes, the PDU serialization
inside modbus_ascii_build_frame succeeds, the LRC byte is then stored at
index 254 of the 254-byte local binary_buffer, and that access is out of
bounds: the claimed in-bounds property fails at this input. -/
theorem C3_ascii_build_lrc_out_of_bounds :
    modbus_pdu_serialize (⟨3, List.replicate 252 0, 252⟩ : modbus_pdu_t)
      (MODBUS_ASCII_MAX_BINARY_LEN - 1) =
      Except.ok (3 :: List.replicate 252 0) ∧
    ascii_build_lrc_index ⟨1, ⟨3, List.replicate 252 0, 252⟩, 0, 0⟩ =
      MODBUS_ASCII_MAX_BINARY_LEN ∧
    ascii_build_accesses_in_bounds ⟨1, ⟨3, List.replicate 252 0, 252⟩, 0, 0⟩ =
      false := by
  decide

/-- C1: for an initialized context, modbus_slave_process_adu sets
send_response to true exactly when the request's unit id is neither 0 nor
different from the configured unit id; whenever send_response is true one
response ADU has been produced, and in the filtered case the call returns
MODBUS_OK with send_response false. -/
theorem C1_process_adu_send_response_iff (cbs : modbus_callbacks)
    (ctx : modbus_context) (request : modbus_adu_t)
    (hinit : ctx.initialized = true) :
    ((modbus_slave_process_adu cbs ctx request).send_response = true ↔
      (request.unit_id ≠ 0 ∧ request.unit_id = ctx.config.unit_id)) ∧
    ((modbus_slave_process_adu cbs ctx request).send_response = true →
      (modbus_slave_process_adu cbs ctx request).response.isSome = true) ∧
    ((request.unit_id ≠ 0 ∧ request.unit_id ≠ ctx.config.unit_id) →
      (modbus_slave_process_adu cbs ctx request).err = .MODBUS_OK ∧
      (modbus_slave_process_adu cbs ctx request).send_response = false) := by
  unfold modbus_slave_process_adu
  by_cases hfil : request.unit_id ≠ ctx.config.unit_id ∧ request.unit_id ≠ 0
  · rw [if_pos hfil]
    refine ⟨by simp [hfil.1], by simp, fun _ => ⟨rfl, rfl⟩⟩
  · rw [if_neg hfil]
    obtain ⟨he, hs⟩ := modbus_slave_process_pdu_ok cbs ctx request.pdu hinit
    unfold adu_finish
    rw [if_pos he]
    cases hr : (modbus_slave_process_pdu cbs ctx request.pdu).response with
    | none => rw [hr] at hs; simp at hs
    | some p =>
        dsimp only
        refine ⟨?_, fun _ => rfl, fun hcon => absurd ⟨hcon.2, hcon.1⟩ hfil⟩
        simp only [bne_iff_ne, ne_eq]
        constructor
        · intro h0
          refine ⟨h0, ?_⟩
          by_contra hc
          exact hfil ⟨hc, h0⟩
        · intro h
          exact h.1

/-- Witness for C1 at a matching unit id. -/
theorem C1_process_adu_send_response_iff_witness :
    ((modbus_slave_process_adu sample_ok_callbacks sample_ctx
        ⟨1, ⟨3, [0, 0, 0, 10], 4⟩, 0, 0⟩).send_response = true ↔
      ((1 : Nat) ≠ 0 ∧ (1 : Nat) = 1)) ∧
    ((modbus_slave_process_adu sample_ok_callbacks sample_ctx
        ⟨1, ⟨3, [0, 0, 0, 10], 4⟩, 0, 0⟩).send_response = true →
      (modbus_slave_process_adu sample_ok_callbacks sample_ctx
        ⟨1, ⟨3, [0, 0, 0, 10], 4⟩, 0, 0⟩).response.isSome = true) ∧
    (((1 : Nat) ≠ 0 ∧ (1 : Nat) ≠ 1) →
      (modbus_slave_process_adu sample_ok_callbacks sample_ctx
        ⟨1, ⟨3, [0, 0, 0, 10], 4⟩, 0, 0⟩).err = .MODBUS_OK ∧
      (modbus_slave_process_adu sample_ok_callbacks sample_ctx
        ⟨1, ⟨3, [0, 0, 0, 10], 4⟩, 0, 0⟩).send_response = false) :=
  C1_process_adu_send_response_iff sample_ok_callbacks sample_ctx
    ⟨1, ⟨3, [0, 0, 0, 10], 4⟩, 0, 0⟩ rfl

/-- C4: a broadcast (unit id 0) write-single-register request whose payload
decodes invokes the write_single_register callback exactly once with the
decoded address and value, emits no response, increments the requests
counter by exactly 1, and returns MODBUS_OK. -/
theorem C4_broadcast_write_single_register (cbs : modbus_callbacks)
    (ctx : modbus_context) (request : modbus_adu_t)
    (hinit : ctx.initialized = true) (hunit : request.unit_id = 0)
    (hfc : request.pdu.function_code = 6)
    (hlen : 4 ≤ request.pdu.data_length) :
    (modbus_slave_process_adu cbs ctx request).calls =
      [modbus_cb_call.writeSingleRegister
        (pdu_read_uint16_be request.pdu.data 0)
        (pdu_read_uint16_be request.pdu.data 2)] ∧
    (modbus_slave_process_adu cbs ctx request).send_response = false ∧
    (modbus_slave_process_adu cbs ctx request).ctx.requests_processed =
      ctx.requests_processed + 1 ∧
    (modbus_slave_process_adu cbs ctx request).err = .MODBUS_OK := by
  have hdisp : ∃ resp, dispatch_pdu cbs
      { ctx with requests_processed := ctx.requests_processed + 1 }
      request.pdu =
      ⟨{ ctx with requests_processed := ctx.requests_processed + 1 },
        .MODBUS_OK, some resp,
        [modbus_cb_call.writeSingleRegister
          (pdu_read_uint16_be request.pdu.data 0)
          (pdu_read_uint16_be request.pdu.data 2)]⟩ := by
    unfold dispatch_pdu
    rw [if_neg (by omega), if_neg (by omega), if_neg (by omega),
      if_neg (by omega), if_neg (by omega), if_pos hfc]
    unfold process_write_single_register
      modbus_pdu_decode_write_single_register_request
    rw [if_pos hlen]
    simp only
    by_cases hexc : cbs.write_single_register
        (pdu_read_uint16_be request.pdu.data 0)
        (pdu_read_uint16_be request.pdu.data 2) ≠ .MODBUS_EXCEPTION_NONE
    · rw [if_pos hexc]
      exact ⟨_, rfl⟩
    · rw [if_neg hexc]
      exact ⟨_, rfl⟩
  obtain ⟨resp, hd⟩ := hdisp
  have hpdu : modbus_slave_process_pdu cbs ctx request.pdu =
      ⟨{ ctx with requests_processed := ctx.requests_processed + 1 },
        .MODBUS_OK, some resp,
        [modbus_cb_call.writeSingleRegister
          (pdu_read_uint16_be request.pdu.data 0)
          (pdu_read_uint16_be request.pdu.data 2)]⟩ := by
    unfold modbus_slave_process_pdu
    rw [if_pos hinit, hd]
    rfl
  unfold modbus_slave_process_adu
  rw [if_neg (by simp [hunit]), hpdu]
  unfold adu_finish
  simp [hunit]

/-- Witness for C4 at a broadcast request writing 258 to register 5. -/
theorem C4_broadcast_write_single_register_witness :
    (modbus_slave_process_adu sample_ok_callbacks sample_ctx
      ⟨0, ⟨6, [0, 5, 1, 2], 4⟩, 0, 0⟩).calls =
      [modbus_cb_call.writeSingleRegister 5 258] ∧
    (modbus_slave_process_adu sample_ok_callbacks sample_ctx
      ⟨0, ⟨6, [0, 5, 1, 2], 4⟩, 0, 0⟩).send_response = false ∧
    (modbus_slave_process_adu sample_ok_callbacks sample_ctx
      ⟨0, ⟨6, [0, 5, 1, 2], 4⟩, 0, 0⟩).ctx.requests_processed = 1 ∧
    (modbus_slave_process_adu sample_ok_callbacks sample_ctx
      ⟨0, ⟨6, [0, 5, 1, 2], 4⟩, 0, 0⟩).err = .MODBUS_OK :=
  C4_broadcast_write_single_register sample_ok_callbacks sample_ctx
    ⟨0, ⟨6, [0, 5, 1, 2], 4⟩, 0, 0⟩ rfl rfl rfl (by decide)

/-- C2 counterexample: a supported write-single-coil request (FC05,
payload address 0, value 0xFF00) that decodes and validates, whose callback
returns the non-None exception IllegalDataAddress: the response is the
exception response, but the exceptions counter is left at 0 instead of
being incremented by exactly 1. -/
theorem C2_counterexample_fc05_counter_not_incremented :
    callback_exception_result sample_exception_callbacks
      ⟨5, [0, 0, 255, 0], 4⟩ =
      some .MODBUS_EXCEPTION_ILLEGAL_DATA_ADDRESS ∧
    (modbus_slave_process_pdu sample_exception_callbacks sample_ctx
      ⟨5, [0, 0, 255, 0], 4⟩).response =
      some (modbus_pdu_encode_exception 5 .MODBUS_EXCEPTION_ILLEGAL_DATA_ADDRESS) ∧
    (modbus_slave_process_pdu sample_exception_callbacks sample_ctx
      ⟨5, [0, 0, 255, 0], 4⟩).ctx.exceptions_sent = 0 ∧
    (modbus_slave_process_pdu sample_exception_callbacks sample_ctx
      ⟨5, [0, 0, 255, 0], 4⟩).ctx.exceptions_sent ≠
      sample_ctx.exceptions_sent + 1 := by
  decide

/-- The FC01 handler under a callback exception: the counter is
incremented and the exception is encoded. -/
theorem process_read_coils_exception (cbs : modbus_callbacks)
    (ctx : modbus_context) (request : modbus_pdu_t) (s q : Nat)
    (hdec : modbus_pdu_decode_read_bits_request request = .ok (s, q))
    (hq : ¬(q = 0 ∨ q > 2000))
    (hx : (cbs.read_coils s q).1 ≠ .MODBUS_EXCEPTION_NONE) :
    process_read_coils cbs ctx request =
      ⟨{ ctx with
          coil_buffer := (cbs.read_coils s q).2,
          exceptions_sent := ctx.exceptions_sent + 1 },
        .MODBUS_OK,
        some (modbus_pdu_encode_exception 1 (cbs.read_coils s q).1),
        [.readCoils s q]⟩ := by
  unfold process_read_coils
  rw [hdec]
  dsimp only
  rw [if_neg hq, if_pos hx]

/-- The FC02 handler under a callback exception. -/
theorem process_read_discrete_inputs_exception (cbs : modbus_callbacks)
    (ctx : modbus_context) (request : modbus_pdu_t) (s q : Nat)
    (hdec : modbus_pdu_decode_read_bits_request request = .ok (s, q))
    (hq : ¬(q = 0 ∨ q > 2000))
    (hx : (cbs.read_discrete_inputs s q).1 ≠ .MODBUS_EXCEPTION_NONE) :
    process_read_discrete_inputs cbs ctx request =
      ⟨{ ctx with
          coil_buffer := (cbs.read_discrete_inputs s q).2,
          exceptions_sent := ctx.exceptions_sent + 1 },
        .MODBUS_OK,
        some (modbus_pdu_encode_exception 2 (cbs.read_discrete_inputs s q).1),
        [.readDiscreteInputs s q]⟩ := by
  unfold process_read_discrete_inputs
  rw [hdec]
  dsimp only
  rw [if_neg hq, if_pos hx]

/-- The FC03 handler under a callback exception. -/
theorem process_read_holding_registers_exception (cbs : modbus_callbacks)
    (ctx : modbus_context) (request : modbus_pdu_t) (s q : Nat)
    (hdec : modbus_pdu_decode_read_registers_request request = .ok (s, q))
    (hq : ¬(q = 0 ∨ q > 125))
    (hx : (cbs.read_holding_registers s q).1 ≠ .MODBUS_EXCEPTION_NONE) :
    process_read_holding_registers cbs ctx request =
      ⟨{ ctx with
          register_buffer := (cbs.read_holding_registers s q).2,
          exceptions_sent := ctx.exceptions_sent + 1 },
        .MODBUS_OK,
        some (modbus_pdu_encode_exception 3 (cbs.read_holding_registers s q).1),
        [.readHoldingRegisters s q]⟩ := by
  unfold process_read_holding_registers
  rw [hdec]
  dsimp only
  rw [if_neg hq, if_pos hx]

/-- The FC04 handler under a callback exception. -/
theorem process_read_input_registers_exception (cbs : modbus_callbacks)
    (ctx : modbus_context) (request : modbus_pdu_t) (s q : Nat)
    (hdec : modbus_pdu_decode_read_registers_request request = .ok (s, q))
    (hq : ¬(q = 0 ∨ q > 125))
    (hx : (cbs.read_input_registers s q).1 ≠ .MODBUS_EXCEPTION_NONE) :
    process_read_input_registers cbs ctx request =
      ⟨{ ctx with
          register_buffer := (cbs.read_input_registers s q).2,
          exceptions_sent := ctx.exceptions_sent + 1 },
        .MODBUS_OK,
        some (modbus_pdu_encode_exception 4 (cbs.read_input_registers s q).1),
        [.readInputRegisters s q]⟩ := by
  unfold process_read_input_registers
  rw [hdec]
  dsimp only
  rw [if_neg hq, if_pos hx]

/-- The FC05 handler under a callback exception: the exception is encoded
but the context, its exceptions counter included, is unchanged. -/
theorem process_write_single_coil_exception (cbs : modbus_callbacks)
    (ctx : modbus_context) (request : modbus_pdu_t) (a : Nat) (v : Bool)
    (hdec : modbus_pdu_decode_write_single_coil_request request = .ok (a, v))
    (hx : cbs.write_single_coil a v ≠ .MODBUS_EXCEPTION_NONE) :
    process_write_single_coil cbs ctx request =
      ⟨ctx, .MODBUS_OK,
        some (modbus_pdu_encode_exception 5 (cbs.write_single_coil a v)),
        [.writeSingleCoil a v]⟩ := by
  unfold process_write_single_coil
  rw [hdec]
  dsimp only
  rw [if_pos hx]

/-- The FC06 handler under a callback exception: the exception is encoded
but the context, its exceptions counter included, is unchanged. -/
theorem process_write_single_register_exception (cbs : modbus_callbacks)
    (ctx : modbus_context) (request : modbus_pdu_t) (a v : Nat)
    (hdec : modbus_pdu_decode_write_single_register_request request = .ok (a, v))
    (hx : cbs.write_single_register a v ≠ .MODBUS_EXCEPTION_NONE) :
    process_write_single_register cbs ctx request =
      ⟨ctx, .MODBUS_OK,
        some (modbus_pdu_encode_exception 6 (cbs.write_single_register a v)),
        [.writeSingleRegister a v]⟩ := by
  unfold process_write_single_register
  rw [hdec]
  dsimp only
  rw [if_pos hx]

/-- The FC15 handler under a callback exception: the exception is encoded
but the context, its exceptions counter included, is unchanged. -/
theorem process_write_multiple_coils_exception (cbs : modbus_callbacks)
    (ctx : modbus_context) (request : modbus_pdu_t) (s q : Nat) (vs : List Nat)
    (hdec : modbus_pdu_decode_write_multiple_coils_request request = .ok (s, q, vs))
    (hq : ¬(q = 0 ∨ q > 1968))
    (hx : cbs.write_multiple_coils s q vs ≠ .MODBUS_EXCEPTION_NONE) :
    process_write_multiple_coils cbs ctx request =
      ⟨ctx, .MODBUS_OK,
        some (modbus_pdu_encode_exception 15 (cbs.write_multiple_coils s q vs)),
        [.writeMultipleCoils s q vs]⟩ := by
  unfold process_write_multiple_coils
  rw [hdec]
  dsimp only
  rw [if_neg hq, if_pos hx]

/-- The FC16 handler under a callback exception: the decoded values are
written into the register scratch buffer and the exception is encoded, but
the exceptions counter is unchanged. -/
theorem process_write_multiple_registers_exception (cbs : modbus_callbacks)
    (ctx : modbus_context) (request : modbus_pdu_t) (s q : Nat) (vs : List Nat)
    (hdec : modbus_pdu_decode_write_multiple_registers_request request 123 =
      .ok (s, q, vs))
    (hq : ¬(q = 0 ∨ q > 123))
    (hx : cbs.write_multiple_registers s q vs ≠ .MODBUS_EXCEPTION_NONE) :
    process_write_multiple_registers cbs ctx request =
      ⟨{ ctx with register_buffer := vs ++ ctx.register_buffer.drop vs.length },
        .MODBUS_OK,
        some (modbus_pdu_encode_exception 16 (cbs.write_multiple_registers s q vs)),
        [.writeMultipleRegisters s q vs]⟩ := by
  unfold process_write_multiple_registers
  rw [hdec]
  dsimp only
  rw [if_neg hq, if_pos hx]

/-- C2 amended: for every initialized context and supported function code,
when the request decodes, passes quantity validation, and the invoked
callback returns the non-None exception e, the response PDU is the
exception response carrying e; the exceptions counter is incremented by
exactly 1 for the read function codes 01, 02, 03, 04 and is left unchanged
for the write function codes 05, 06, 15, 16. -/
theorem C2_callback_exception_encoding (cbs : modbus_callbacks)
    (ctx : modbus_context) (request : modbus_pdu_t) (e : modbus_exception_t)
    (hinit : ctx.initialized = true)
    (hfc : request.function_code ∈ ([1, 2, 3, 4, 5, 6, 15, 16] : List Nat))
    (hexc : callback_exception_result cbs request = some e) :
    (modbus_slave_process_pdu cbs ctx request).response =
      some (modbus_pdu_encode_exception request.function_code e) ∧
    (modbus_slave_process_pdu cbs ctx request).ctx.exceptions_sent =
      ctx.exceptions_sent + exception_counter_delta request.function_code := by
  unfold callback_exception_result at hexc
  simp only [List.mem_cons, List.not_mem_nil, or_false] at hfc
  rcases hfc with h | h | h | h | h | h | h | h
  · rw [if_pos h] at hexc
    cases hdec : modbus_pdu_decode_read_bits_request request with
    | error err => rw [hdec] at hexc; simp at hexc
    | ok p =>
        obtain ⟨s, q⟩ := p
        rw [hdec] at hexc
        dsimp only at hexc
        by_cases hq : q = 0 ∨ q > 2000
        · rw [if_pos hq] at hexc; simp at hexc
        · rw [if_neg hq] at hexc
          by_cases hx : (cbs.read_coils s q).1 ≠ .MODBUS_EXCEPTION_NONE
          · rw [if_pos hx] at hexc
            have he : (cbs.read_coils s q).1 = e := by simpa using hexc
            unfold modbus_slave_process_pdu
            rw [if_pos hinit]
            unfold dispatch_pdu
            rw [if_pos h,
              process_read_coils_exception cbs _ request s q hdec hq hx]
            unfold count_pdu_error
            rw [if_pos rfl]
            refine ⟨by rw [he, h], ?_⟩
            simp [exception_counter_delta, h]
          · rw [if_neg hx] at hexc; simp at hexc
  · rw [if_neg (by omega), if_pos h] at hexc
    cases hdec : modbus_pdu_decode_read_bits_request request with
    | error err => rw [hdec] at hexc; simp at hexc
    | ok p =>
        obtain ⟨s, q⟩ := p
        rw [hdec] at hexc
        dsimp only at hexc
        by_cases hq : q = 0 ∨ q > 2000
        · rw [if_pos hq] at hexc; simp at hexc
        · rw [if_neg hq] at hexc
          by_cases hx : (cbs.read_discrete_inputs s q).1 ≠ .MODBUS_EXCEPTION_NONE
          · rw [if_pos hx] at hexc
            have he : (cbs.read_discrete_inputs s q).1 = e := by simpa using hexc
            unfold modbus_slave_process_pdu
            rw [if_pos hinit]
            unfold dispatch_pdu
            rw [if_neg (by omega), if_pos h,
              process_read_discrete_inputs_exception cbs _ request s q hdec hq hx]
            unfold count_pdu_error
            rw [if_pos rfl]
            refine ⟨by rw [he, h], ?_⟩
            simp [exception_counter_delta, h]
          · rw [if_neg hx] at hexc; simp at hexc
  · rw [if_neg (by omega), if_neg (by omega), if_pos h] at hexc
    cases hdec : modbus_pdu_decode_read_registers_request request with
    | error err => rw [hdec] at hexc; simp at hexc
    | ok p =>
        obtain ⟨s, q⟩ := p
        rw [hdec] at hexc
        dsimp only at hexc
        by_cases hq : q = 0 ∨ q > 125
        · rw [if_pos hq] at hexc; simp at hexc
        · rw [if_neg hq] at hexc
          by_cases hx : (cbs.read_holding_registers s q).1 ≠ .MODBUS_EXCEPTION_NONE
          · rw [if_pos hx] at hexc
            have he : (cbs.read_holding_registers s q).1 = e := by simpa using hexc
            unfold modbus_slave_process_pdu
            rw [if_pos hinit]
            unfold dispatch_pdu
            rw [if_neg (by omega), if_neg (by omega), if_pos h,
              process_read_holding_registers_exception cbs _ request s q hdec hq hx]
            unfold count_pdu_error
            rw [if_pos rfl]
            refine ⟨by rw [he, h], ?_⟩
            simp [exception_counter_delta, h]
          · rw [if_neg hx] at hexc; simp at hexc
  · rw [if_neg (by omega), if_neg (by omega), if_neg (by omega), if_pos h] at hexc
    cases hdec : modbus_pdu_decode_read_registers_request request with
    | error err => rw [hdec] at hexc; simp at hexc
    | ok p =>
        obtain ⟨s, q⟩ := p
        rw [hdec] at hexc
        dsimp only at hexc
        by_cases hq : q = 0 ∨ q > 125
        · rw [if_pos hq] at hexc; simp at hexc
        · rw [if_neg hq] at hexc
          by_cases hx : (cbs.read_input_registers s q).1 ≠ .MODBUS_EXCEPTION_NONE
          · rw [if_pos hx] at hexc
            have he : (cbs.read_input_registers s q).1 = e := by simpa using hexc
            unfold modbus_slave_process_pdu
            rw [if_pos hinit]
            unfold dispatch_pdu
            rw [if_neg (by omega), if_neg (by omega), if_neg (by omega),
              if_pos h,
              process_read_input_registers_exception cbs _ request s q hdec hq hx]
            unfold count_pdu_error
            rw [if_pos rfl]
            refine ⟨by rw [he, h], ?_⟩
            simp [exception_counter_delta, h]
          · rw [if_neg hx] at hexc; simp at hexc
  · rw [if_neg (by omega), if_neg (by omega), if_neg (by omega),
      if_neg (by omega), if_pos h] at hexc
    cases hdec : modbus_pdu_decode_write_single_coil_request request with
    | error err => rw [hdec] at hexc; simp at hexc
    | ok p =>
        obtain ⟨a, v⟩ := p
        rw [hdec] at hexc
        dsimp only at hexc
        by_cases hx : cbs.write_single_coil a v ≠ .MODBUS_EXCEPTION_NONE
        · rw [if_pos hx] at hexc
          have he : cbs.write_single_coil a v = e := by simpa using hexc
          unfold modbus_slave_process_pdu
          rw [if_pos hinit]
          unfold dispatch_pdu
          rw [if_neg (by omega), if_neg (by omega), if_neg (by omega),
            if_neg (by omega), if_pos h,
            process_write_single_coil_exception cbs _ request a v hdec hx]
          unfold count_pdu_error
          rw [if_pos rfl]
          refine ⟨by rw [he, h], ?_⟩
          simp [exception_counter_delta, h]
        · rw [if_neg hx] at hexc; simp at hexc
  · rw [if_neg (by omega), if_neg (by omega), if_neg (by omega),
      if_neg (by omega), if_neg (by omega), if_pos h] at hexc
    cases hdec : modbus_pdu_decode_write_single_register_request request with
    | error err => rw [hdec] at hexc; simp at hexc
    | ok p =>
        obtain ⟨a, v⟩ := p
        rw [hdec] at hexc
        dsimp only at hexc
        by_cases hx : cbs.write_single_register a v ≠ .MODBUS_EXCEPTION_NONE
        · rw [if_pos hx] at hexc
          have he : cbs.write_single_register a v = e := by simpa using hexc
          unfold modbus_slave_process_pdu
          rw [if_pos hinit]
          unfold dispatch_pdu
          rw [if_neg (by omega), if_neg (by omega), if_neg (by omega),
            if_neg (by omega), if_neg (by omega), if_pos h,
            process_write_single_register_exception cbs _ request a v hdec hx]
          unfold count_pdu_error
          rw [if_pos rfl]
          refine ⟨by rw [he, h], ?_⟩
          simp [exception_counter_delta, h]
        · rw [if_neg hx] at hexc; simp at hexc
  · rw [if_neg (by omega), if_neg (by omega), if_neg (by omega),
      if_neg (by omega), if_neg (by omega), if_neg (by omega), if_pos h] at hexc
    cases hdec : modbus_pdu_decode_write_multiple_coils_request request with
    | error err => rw [hdec] at hexc; simp at hexc
    | ok p =>
        obtain ⟨s, q, vs⟩ := p
        rw [hdec] at hexc
        dsimp only at hexc
        by_cases hq : q = 0 ∨ q > 1968
        · rw [if_pos hq] at hexc; simp at hexc
        · rw [if_neg hq] at hexc
          by_cases hx : cbs.write_multiple_coils s q vs ≠ .MODBUS_EXCEPTION_NONE
          · rw [if_pos hx] at hexc
            have he : cbs.write_multiple_coils s q vs = e := by simpa using hexc
            unfold modbus_slave_process_pdu
            rw [if_pos hinit]
            unfold dispatch_pdu
            rw [if_neg (by omega), if_neg (by omega), if_neg (by omega),
              if_neg (by omega), if_neg (by omega), if_neg (by omega),
              if_pos h,
              process_write_multiple_coils_exception cbs _ request s q vs hdec hq hx]
            unfold count_pdu_error
            rw [if_pos rfl]
            refine ⟨by rw [he, h], ?_⟩
            simp [exception_counter_delta, h]
          · rw [if_neg hx] at hexc; simp at hexc
  · rw [if_neg (by omega), if_neg (by omega), if_neg (by omega),
      if_neg (by omega), if_neg (by omega), if_neg (by omega),
      if_neg (by omega), if_pos h] at hexc
    cases hdec : modbus_pdu_decode_write_multiple_registers_request request 123 with
    | error err => rw [hdec] at hexc; simp at hexc
    | ok p =>
        obtain ⟨s, q, vs⟩ := p
        rw [hdec] at hexc
        dsimp only at hexc
        by_cases hq : q = 0 ∨ q > 123
        · rw [if_pos hq] at hexc; simp at hexc
        · rw [if_neg hq] at hexc
          by_cases hx : cbs.write_multiple_registers s q vs ≠ .MODBUS_EXCEPTION_NONE
          · rw [if_pos hx] at hexc
            have he : cbs.write_multiple_registers s q vs = e := by simpa using hexc
            unfold modbus_slave_process_pdu
            rw [if_pos hinit]
            unfold dispatch_pdu
            rw [if_neg (by omega), if_neg (by omega), if_neg (by omega),
              if_neg (by omega), if_neg (by omega), if_neg (by omega),
              if_neg (by omega), if_pos h,
              process_write_multiple_registers_exception cbs _ request s q vs hdec hq hx]
            unfold count_pdu_error
            rw [if_pos rfl]
            refine ⟨by rw [he, h], ?_⟩
            simp [exception_counter_delta, h]
          · rw [if_neg hx] at hexc; simp at hexc

/-- Witness for the amended C2 at a read-coils request whose callback
reports IllegalDataAddress. -/
theorem C2_callback_exception_encoding_witness :
    (modbus_slave_process_pdu sample_exception_callbacks sample_ctx
      ⟨1, [0, 0, 0, 1], 4⟩).response =
      some (modbus_pdu_encode_exception 1 .MODBUS_EXCEPTION_ILLEGAL_DATA_ADDRESS) ∧
    (modbus_slave_process_pdu sample_exception_callbacks sample_ctx
      ⟨1, [0, 0, 0, 1], 4⟩).ctx.exceptions_sent =
      sample_ctx.exceptions_sent + exception_counter_delta 1 :=
  C2_callback_exception_encoding sample_exception_callbacks sample_ctx
    ⟨1, [0, 0, 0, 1], 4⟩ .MODBUS_EXCEPTION_ILLEGAL_DATA_ADDRESS
    rfl (by decide) (by decide)

end Modbus
